import Mathlib

/-!
# Verification of the aio-backend number-pool provisioning engine

A shallow embedding of the number-pool allocation and provider-fallback
provisioning code (`VerimorService`, `TwilioService`, `AuthService`, and the
`/paynet/callback` route) as pure Lean functions over an explicit database
state, together with theorems settling the specification claims.

Database rows are lists of records; every SQL statement of the source is
translated into an explicit pure operation on this state.  A transaction
(`BEGIN` … `COMMIT`/`ROLLBACK`) is modelled by the function either returning
the updated state (commit) or an `Except.error` leaving the caller with the
old state (rollback).  Row identifiers that the real database generates
(`gen_random_uuid()`, `RETURNING id`) are passed in as parameters.
-/

namespace AioBackend

/-- A row of the `verimor_numbers` table (migration
`001_verimor_integration.sql`): `id UUID PRIMARY KEY`,
`did_number VARCHAR UNIQUE NOT NULL`, `status` defaulting to `'available'`,
nullable `tenant_id`, `agent_id`, `webhook_secret`, `assigned_at`. -/
structure NumberRow where
  id : String
  did_number : String
  status : String
  tenant_id : Option String
  agent_id : Option String
  assigned_at : Option Nat
  webhook_secret : Option String
deriving Repr, DecidableEq

/-- A row of the `tenants` table, with the columns the core writes:
`INSERT INTO tenants (name, slug, email, password_hash, paynet_ref_code)`. -/
structure TenantRow where
  id : String
  name : String
  slug : String
  email : String
  password_hash : String
  paynet_ref_code : Option String
deriving Repr, DecidableEq

/-- A row of the `agents` table, with the columns the core writes:
the insert in `AuthService`, plus `verimor_did` (set by
`assignNumberToTenant` / cleared by `releaseNumber`) and
`twilio_phone_number` / `twilio_sid` (set by the Twilio fallback in the
paynet callback). -/
structure AgentRow where
  id : String
  tenant_id : String
  name : String
  role_type : String
  system_prompt : String
  model : String
  verimor_did : Option String
  twilio_phone_number : Option String
  twilio_sid : Option String
deriving Repr, DecidableEq

/-- A row of the `quotas` table:
`INSERT INTO quotas (tenant_id, plan_name, monthly_message_limit)`. -/
structure QuotaRow where
  tenant_id : String
  plan_name : String
  monthly_message_limit : Nat
deriving Repr, DecidableEq

/-- The shared mutable database state touched by the provisioning core. -/
structure DB where
  verimor_numbers : List NumberRow
  tenants : List TenantRow
  agents : List AgentRow
  quotas : List QuotaRow
deriving Repr, DecidableEq

/-- Result of `VerimorService.assignNumberToTenant` (its
`AssignedNumberResult` interface; the constant `success: true` field is
omitted since every returned value carries it). -/
structure AssignedNumberResult where
  didNumber : String
  numberId : String
  tenantId : String
  agentId : String
deriving Repr, DecidableEq

/-- `SELECT id, did_number FROM verimor_numbers WHERE status = 'available'
LIMIT 1 FOR UPDATE SKIP LOCKED`: the first row in table order whose status
is `available` (LIMIT 1 with no ORDER BY: deterministic first match in the
model). -/
def selectAvailable (rows : List NumberRow) : Option NumberRow :=
  rows.find? (fun r => r.status == "available")

/-- `UPDATE verimor_numbers SET status = 'assigned', tenant_id = $2,
agent_id = $3, assigned_at = NOW() WHERE id = $4`. -/
def markAssigned (tenantId agentId numberId : String) (now : Nat)
    (rows : List NumberRow) : List NumberRow :=
  rows.map (fun r =>
    if r.id = numberId then
      { r with status := "assigned", tenant_id := some tenantId,
               agent_id := some agentId, assigned_at := some now }
    else r)

/-- `UPDATE agents SET verimor_did = $1 WHERE id = $2`. -/
def setAgentDid (didNumber agentId : String) (agents : List AgentRow) :
    List AgentRow :=
  agents.map (fun a =>
    if a.id = agentId then { a with verimor_did := some didNumber } else a)

/-- `VerimorService.assignNumberToTenant`: inside one transaction, select an
available number with `FOR UPDATE SKIP LOCKED`; if none, roll back and throw
(`Havuzda müsait numara kalmadı!`); otherwise mark it assigned, stamp the
agent's `verimor_did`, and commit.  The thrown error is modelled as
`Except.error`; the rollback means the caller's state is unchanged. -/
def assignNumberToTenant (tenantId agentId : String) (now : Nat) (db : DB) :
    Except String (AssignedNumberResult × DB) :=
  match selectAvailable db.verimor_numbers with
  | none => .error "Havuzda müsait numara kalmadı!"
  | some row =>
      let numbers := markAssigned tenantId agentId row.id now db.verimor_numbers
      let agents := setAgentDid row.did_number agentId db.agents
      .ok ({ didNumber := row.did_number, numberId := row.id,
             tenantId := tenantId, agentId := agentId },
           { db with verimor_numbers := numbers, agents := agents })

/-- Result of `VerimorService.releaseNumber` (its `ReleaseNumberResult`). -/
structure ReleaseNumberResult where
  success : Bool
  message : String
deriving Repr, DecidableEq

/-- `UPDATE verimor_numbers SET status = 'available', tenant_id = NULL,
agent_id = NULL, assigned_at = NULL WHERE id = $1`. -/
def markReleased (numberId : String) (rows : List NumberRow) :
    List NumberRow :=
  rows.map (fun r =>
    if r.id = numberId then
      { r with status := "available", tenant_id := none,
               agent_id := none, assigned_at := none }
    else r)

/-- `UPDATE agents SET verimor_did = NULL WHERE id = $1`. -/
def clearAgentDid (agentId : String) (agents : List AgentRow) :
    List AgentRow :=
  agents.map (fun a =>
    if a.id = agentId then { a with verimor_did := none } else a)

/-- `VerimorService.releaseNumber`: inside one transaction, look the number
up by `did_number`; if absent, roll back and throw (`Numara bulunamadı`);
otherwise reset its row to `available` with cleared owner fields, clear the
owning agent's `verimor_did` when an owner was recorded, and commit. -/
def releaseNumber (didNumber : String) (db : DB) :
    Except String (ReleaseNumberResult × DB) :=
  match db.verimor_numbers.find? (fun r => r.did_number == didNumber) with
  | none => .error ("Numara bulunamadı: " ++ didNumber)
  | some row =>
      let numbers := markReleased row.id db.verimor_numbers
      let agents :=
        match row.agent_id with
        | some agentId => clearAgentDid agentId db.agents
        | none => db.agents
      .ok ({ success := true,
             message := "Numara " ++ didNumber ++ " başarıyla serbest bırakıldı" },
           { db with verimor_numbers := numbers, agents := agents })

/-- `VerimorService.getAvailableCount`:
`SELECT COUNT(*) FROM verimor_numbers WHERE status = 'available'`. -/
def getAvailableCount (db : DB) : Nat :=
  (db.verimor_numbers.filter (fun r => r.status == "available")).length

/-- `VerimorService.addToPool`: `INSERT INTO verimor_numbers
(did_number, status, webhook_secret) VALUES ($1, 'available', $2)`.
The `UNIQUE` constraint on `did_number` makes the insert fail when the
number already exists; the fresh `id` is a parameter (the database's
`gen_random_uuid()`). -/
def addToPool (didNumber : String) (webhookSecret : Option String)
    (freshId : String) (db : DB) : Except String (NumberRow × DB) :=
  if db.verimor_numbers.any (fun r => r.did_number == didNumber) then
    .error "duplicate key value violates unique constraint"
  else
    let row : NumberRow :=
      { id := freshId, did_number := didNumber, status := "available",
        tenant_id := none, agent_id := none, assigned_at := none,
        webhook_secret := webhookSecret }
    .ok (row, { db with verimor_numbers := db.verimor_numbers ++ [row] })

/-- Result of `TwilioService.buyPhoneNumber`. -/
structure TwilioPurchase where
  phoneNumber : String
  sid : String
deriving Repr, DecidableEq

/-- Environment of `TwilioService.buyPhoneNumber`: either the Twilio
credentials are absent (`client` is null, the purchase is mocked), or the
live client performs the remote search-and-purchase, whose outcome —
success, no inventory, auth or network failure — is an oracle supplied by
the environment. -/
inductive TwilioEnv
  | noCredentials (mockSid : String)
  | live (outcome : Except String TwilioPurchase)
deriving Repr

/-- `TwilioService.buyPhoneNumber`: without credentials it returns the fixed
mock purchase `+905550001122`; with credentials it performs the remote
search/purchase and rethrows any failure as
`Numara satın alınamadı: ...`. -/
def buyPhoneNumber (tenantSlug : String) (env : TwilioEnv) :
    Except String TwilioPurchase :=
  match env with
  | .noCredentials mockSid => .ok { phoneNumber := "+905550001122", sid := mockSid }
  | .live outcome =>
      match outcome with
      | .ok phone => .ok phone
      | .error e => .error ("Numara satın alınamadı: " ++ e ++ " " ++ tenantSlug)

/-- Trace events of one provisioning flow: transaction boundaries of the
multi-statement database transactions, the pool-claim attempt inside the
claim transaction, the external Twilio HTTP purchase call, and the
recording of the placeholder number. -/
inductive Event
  | txBegin
  | txCommit
  | txRollback
  | poolClaimAttempt
  | twilioPurchaseAttempt (tenantSlug : String)
  | placeholderRecorded
deriving Repr, DecidableEq

/-- `true` when no external purchase call occurs at a point where more
database transactions have begun than have committed or rolled back; the
first argument counts the transactions currently open. -/
def noCallWhileTxOpen : Nat → List Event → Bool
  | _, [] => true
  | d, .txBegin :: es => noCallWhileTxOpen (d + 1) es
  | d, .txCommit :: es => noCallWhileTxOpen (d - 1) es
  | d, .txRollback :: es => noCallWhileTxOpen (d - 1) es
  | d, .twilioPurchaseAttempt _ :: es => d == 0 && noCallWhileTxOpen d es
  | d, .poolClaimAttempt :: es => noCallWhileTxOpen d es
  | d, .placeholderRecorded :: es => noCallWhileTxOpen d es

/-- Number of external provider purchase calls in a trace. -/
def countTwilioCalls (es : List Event) : Nat :=
  es.countP (fun e => match e with
    | .twilioPurchaseAttempt _ => true
    | _ => false)

/-- Number of pool-claim attempts in a trace. -/
def countPoolClaims (es : List Event) : Nat :=
  es.countP (fun e => match e with
    | .poolClaimAttempt => true
    | _ => false)

/-- Result of `AuthService.createTenantFromPayment`. -/
structure CreateTenantResult where
  tenantId : String
  slug : String
  email : String
  tempPassword : String
deriving Repr, DecidableEq

/-- `AuthService.createTenantFromPayment`: one transaction inserting a
tenant row (keyed with the payment `reference_no`, with NO lookup of an
existing tenant for that reference), a default agent row, and a quota row;
on any statement failure the transaction rolls back and the error
propagates.  The randomly generated slug/password/hash and the
database-generated row ids are parameters; `txFails` is the
persistence-failure oracle for the transaction. -/
def createTenantFromPayment (email name reference_no : String)
    (slug tempPassword hash freshTenantId freshAgentId : String)
    (txFails : Bool) (db : DB) : Except String (CreateTenantResult × DB) :=
  if txFails then .error "PersistenceFailure"
  else
    let tenant : TenantRow :=
      { id := freshTenantId, name := name, slug := slug, email := email,
        password_hash := hash, paynet_ref_code := some reference_no }
    let agent : AgentRow :=
      { id := freshAgentId, tenant_id := freshTenantId,
        name := "Satış Asistanı", role_type := "general",
        system_prompt := "Sen profesyonel bir asistansın.",
        model := "gemini-pro", verimor_did := none,
        twilio_phone_number := none, twilio_sid := none }
    let quota : QuotaRow :=
      { tenant_id := freshTenantId, plan_name := "pro",
        monthly_message_limit := 5000 }
    .ok ({ tenantId := freshTenantId, slug := slug, email := email,
           tempPassword := tempPassword },
         { db with tenants := db.tenants ++ [tenant],
                   agents := db.agents ++ [agent],
                   quotas := db.quotas ++ [quota] })

/-- Result of `AuthService.signupFromForm` (JWT issuance, plain I/O
plumbing, is omitted). -/
structure SignupResult where
  success : Bool
  tenantId : String
  slug : String
  temporaryPassword : String
  phoneNumber : Option String
  assignmentType : String
deriving Repr, DecidableEq

/-- `AuthService.signupFromForm`: ONE transaction inserting tenant, agent
and quota rows, looking the agent back up by `tenant_id`, then claiming a
pool number inline (`SELECT ... FOR UPDATE SKIP LOCKED`); when a number is
available it is marked assigned and stamped onto the agent, otherwise
`phoneNumber` stays null and `assignmentType` stays `'none'`; the commit
covers all of it, and any failure rolls the whole transaction back. -/
def signupFromForm (businessName contactEmail : String)
    (slug tempPassword hash freshTenantId freshAgentId : String)
    (now : Nat) (txFails : Bool) (db : DB) :
    Except String (SignupResult × DB) :=
  if txFails then .error "PersistenceFailure"
  else
    let tenantId := freshTenantId
    let tenant : TenantRow :=
      { id := tenantId, name := businessName, slug := slug,
        email := contactEmail, password_hash := hash,
        paynet_ref_code := none }
    let agent : AgentRow :=
      { id := freshAgentId, tenant_id := tenantId,
        name := "Satış Asistanı", role_type := "general",
        system_prompt := "Sen profesyonel bir asistansın.",
        model := "gemini-pro", verimor_did := none,
        twilio_phone_number := none, twilio_sid := none }
    let quota : QuotaRow :=
      { tenant_id := tenantId, plan_name := "pro",
        monthly_message_limit := 5000 }
    let db1 : DB :=
      { db with tenants := db.tenants ++ [tenant],
                agents := db.agents ++ [agent],
                quotas := db.quotas ++ [quota] }
    match db1.agents.find? (fun a => a.tenant_id == tenantId) with
    | none => .error "Agent oluşturulamadı"
    | some agentRow =>
        let agentId := agentRow.id
        match selectAvailable db1.verimor_numbers with
        | some row =>
            let db2 : DB :=
              { db1 with verimor_numbers :=
                  markAssigned tenantId agentId row.id now db1.verimor_numbers }
            let db3 : DB :=
              { db2 with agents := setAgentDid row.did_number agentId db2.agents }
            .ok ({ success := true, tenantId := tenantId, slug := slug,
                   temporaryPassword := tempPassword,
                   phoneNumber := some row.did_number,
                   assignmentType := "verimor" }, db3)
        | none =>
            .ok ({ success := true, tenantId := tenantId, slug := slug,
                   temporaryPassword := tempPassword,
                   phoneNumber := none, assignmentType := "none" }, db1)

/-- `UPDATE agents SET twilio_phone_number = $1, twilio_sid = $2
WHERE tenant_id = $3` (Twilio fallback branch of the paynet callback). -/
def setAgentTwilioPurchase (phoneNumber sid tenantId : String)
    (agents : List AgentRow) : List AgentRow :=
  agents.map (fun a =>
    if a.tenant_id = tenantId then
      { a with twilio_phone_number := some phoneNumber, twilio_sid := some sid }
    else a)

/-- `UPDATE agents SET twilio_phone_number = $1 WHERE tenant_id = $2`
(placeholder branch of the paynet callback; `twilio_sid` untouched). -/
def setAgentTwilioPhone (phoneNumber tenantId : String)
    (agents : List AgentRow) : List AgentRow :=
  agents.map (fun a =>
    if a.tenant_id = tenantId then
      { a with twilio_phone_number := some phoneNumber }
    else a)

/-- Response of the `/paynet/callback` route's success branch. -/
structure CallbackResponse where
  success : Bool
  message : String
  tenantSlug : String
  phoneNumber : Option String
  assignmentType : String
deriving Repr, DecidableEq

/-- The placeholder fallback of the paynet callback's inner catch:
record the fixed `+905550001122` on the agent row; if that single UPDATE
itself fails, the error escapes to the route's outer catch with the state
unchanged by this statement. -/
def mockFallbackStep (tenant : CreateTenantResult) (mockUpdateFails : Bool)
    (db1 : DB) (trace : List Event) :
    Except String CallbackResponse × DB × List Event :=
  if mockUpdateFails then (.error "PersistenceFailure", db1, trace)
  else
    (.ok { success := true, message := "Ödeme işlendi, hesap oluşturuldu",
           tenantSlug := tenant.slug,
           phoneNumber := some "+905550001122", assignmentType := "mock" },
     { db1 with agents := setAgentTwilioPhone "+905550001122" tenant.tenantId db1.agents },
     trace ++ [.placeholderRecorded])

/-- The success branch of `apiRouter.post('/paynet/callback')`:
create the tenant/agent/quota in their own committed transaction; look the
agent up; try `VerimorService.assignNumberToTenant` (its own transaction);
on its failure fall back to `TwilioService.buyPhoneNumber` and persist the
purchase on the agent row; on any failure there fall back to the fixed
placeholder.  The route's outer catch turns any unhandled error into the
500 response, modelled as `Except.error` alongside the state already
committed; the returned trace records transaction boundaries and provider
calls in execution order. -/
def paynetCallbackSuccess (email name_surname reference_no : String)
    (slug tempPassword hash freshTenantId freshAgentId : String)
    (now : Nat) (tenantTxFails : Bool) (twilioEnv : TwilioEnv)
    (twilioUpdateFails mockUpdateFails : Bool) (db : DB) :
    Except String CallbackResponse × DB × List Event :=
  match createTenantFromPayment email name_surname reference_no slug
      tempPassword hash freshTenantId freshAgentId tenantTxFails db with
  | .error e => (.error e, db, [.txBegin, .txRollback])
  | .ok (tenant, db1) =>
      match db1.agents.find? (fun a => a.tenant_id == tenant.tenantId) with
      | none =>
          (.error "Tenant oluşturuldu ancak agent bulunamadı", db1,
           [.txBegin, .txCommit])
      | some agentRow =>
          match assignNumberToTenant tenant.tenantId agentRow.id now db1 with
          | .ok (assignment, db2) =>
              (.ok { success := true,
                     message := "Ödeme işlendi, hesap oluşturuldu",
                     tenantSlug := tenant.slug,
                     phoneNumber := some assignment.didNumber,
                     assignmentType := "verimor" },
               db2,
               [.txBegin, .txCommit, .txBegin, .poolClaimAttempt, .txCommit])
          | .error _ =>
              let preTrace : List Event :=
                [.txBegin, .txCommit, .txBegin, .poolClaimAttempt,
                 .txRollback, .twilioPurchaseAttempt tenant.slug]
              match buyPhoneNumber tenant.slug twilioEnv with
              | .ok phone =>
                  if twilioUpdateFails then
                    mockFallbackStep tenant mockUpdateFails db1 preTrace
                  else
                    let agents' := setAgentTwilioPurchase phone.phoneNumber
                      phone.sid tenant.tenantId db1.agents
                    (.ok { success := true,
                           message := "Ödeme işlendi, hesap oluşturuldu",
                           tenantSlug := tenant.slug,
                           phoneNumber := some phone.phoneNumber,
                           assignmentType := "twilio" },
                     { db1 with agents := agents' },
                     preTrace)
              | .error _ =>
                  mockFallbackStep tenant mockUpdateFails db1 preTrace

/-! ## Derived notions and sample states -/

/-- The `did_number`s of the rows currently `available`. -/
def availableDids (rows : List NumberRow) : List String :=
  (rows.filter (fun r => r.status == "available")).map NumberRow.did_number

/-- An `available` pool row, as inserted by `addToPool`. -/
def mkAvailableRow (i d : String) : NumberRow :=
  { id := i, did_number := d, status := "available", tenant_id := none,
    agent_id := none, assigned_at := none, webhook_secret := none }

/-- A pool whose single number is already assigned: no row is `available`. -/
def emptyPoolDB : DB :=
  { verimor_numbers :=
      [{ id := "N3", did_number := "+908503333333", status := "assigned",
         tenant_id := some "T0", agent_id := some "A0",
         assigned_at := some 5, webhook_secret := none }],
    tenants := [], agents := [], quotas := [] }

/-- A pool with two available numbers and nothing else. -/
def twoNumberDB : DB :=
  { verimor_numbers :=
      [mkAvailableRow "N1" "+908501111111", mkAvailableRow "N2" "+908502222222"],
    tenants := [], agents := [], quotas := [] }

/-- The observable outcome of a signup call: `phoneNumber` and
`assignmentType` on success, `none` on a raised error. -/
def signupOutcome (r : Except String (SignupResult × DB)) :
    Option (Option String × String) :=
  match r with
  | .ok (res, _) => some (res.phoneNumber, res.assignmentType)
  | .error _ => none

/-- `selectAvailable` finds nothing exactly when the available count is 0. -/
theorem selectAvailable_eq_none_iff (rows : List NumberRow) :
    selectAvailable rows = none ↔
      (rows.filter (fun r => r.status == "available")).length = 0 := by
  simp [selectAvailable, List.find?_eq_none, List.length_eq_zero,
    List.filter_eq_nil_iff]

/-! ## C3: behaviour of the claim operation on an empty pool -/

/-- **C3 (counterexample)**: at a concrete database state in which no
`verimor_numbers` row has status `available`, `assignNumberToTenant`
does not return a normal `EmptyPool` value: it raises (the thrown
`Havuzda müsait numara kalmadı!` error, modelled as `Except.error`),
refuting the claim that the claim operation never throws for the
pool-empty outcome. -/
theorem c3_assign_throws_on_empty_pool_concrete :
    assignNumberToTenant "T1" "A1" 0 emptyPoolDB =
      .error "Havuzda müsait numara kalmadı!" := by
  rfl

/-- **C3 (amended)**: for every database state with no `available` row,
`VerimorService.assignNumberToTenant` raises the fixed pool-empty error
(its transaction rolled back, so the state is unchanged), an error its
callers catch and branch on; the inline claim in
`AuthService.signupFromForm`, by contrast, returns a normal result with
`phoneNumber` null and `assignmentType` `'none'`. -/
theorem c3_empty_pool_claim_behavior (t a bn ce slug pw hs tid aid : String)
    (now : Nat) (db : DB) (h : getAvailableCount db = 0) :
    assignNumberToTenant t a now db = .error "Havuzda müsait numara kalmadı!" ∧
    signupOutcome (signupFromForm bn ce slug pw hs tid aid now false db) =
      some (none, "none") := by
  have hnone : selectAvailable db.verimor_numbers = none :=
    (selectAvailable_eq_none_iff db.verimor_numbers).mpr h
  constructor
  · simp [assignNumberToTenant, hnone]
  · rcases hfind : db.agents.find? (fun x => x.tenant_id == tid) with _ | a0 <;>
      simp [signupFromForm, signupOutcome, List.find?_append, hfind, hnone]

/-- **C3 (witness)**: the amended theorem applied at the concrete
one-row assigned pool. -/
theorem c3_empty_pool_claim_behavior_witness :
    getAvailableCount emptyPoolDB = 0 ∧
    (assignNumberToTenant "T1" "A1" 0 emptyPoolDB =
        .error "Havuzda müsait numara kalmadı!" ∧
      signupOutcome (signupFromForm "Acme" "a@b.c" "acme-1" "pw" "h" "T1" "A1" 0
          false emptyPoolDB) = some (none, "none")) :=
  ⟨by decide,
   c3_empty_pool_claim_behavior "T1" "A1" "Acme" "a@b.c" "acme-1" "pw" "h"
     "T1" "A1" 0 emptyPoolDB (by decide)⟩

/-! ## C5: the assigned-iff-owned row invariant -/

/-- The spec's per-row invariant: `status = assigned ⟺ tenant reference
non-null`, and the tenant/agent references are clear whenever the row is
`available`. -/
def numberRowInvariant (r : NumberRow) : Prop :=
  (r.status = "assigned" ↔ r.tenant_id ≠ none) ∧
  (r.status = "available" → r.tenant_id = none ∧ r.agent_id = none)

instance (r : NumberRow) : Decidable (numberRowInvariant r) := by
  unfold numberRowInvariant; infer_instance

/-- The invariant over every row of the pool table. -/
def poolInvariant (db : DB) : Prop :=
  ∀ r ∈ db.verimor_numbers, numberRowInvariant r

instance (db : DB) : Decidable (poolInvariant db) := by
  unfold poolInvariant; infer_instance

/-- **C5**: each pool operation — `addToPool`, the claim-and-assign of
`assignNumberToTenant`, and `releaseNumber` — preserves the row invariant
`status = assigned ⟺ tenant reference non-null`, with the tenant/agent
references cleared exactly when the status returns to `available`. -/
theorem c5_pool_ops_preserve_invariant (db : DB) (hinv : poolInvariant db) :
    (∀ d s i row db', addToPool d s i db = .ok (row, db') → poolInvariant db') ∧
    (∀ t a now res db', assignNumberToTenant t a now db = .ok (res, db') →
      poolInvariant db') ∧
    (∀ d res db', releaseNumber d db = .ok (res, db') → poolInvariant db') := by
  refine ⟨?_, ?_, ?_⟩
  · intro d s i row db' hok r hr
    unfold addToPool at hok
    split at hok
    · exact absurd hok (by simp)
    · rw [Except.ok.injEq, Prod.mk.injEq] at hok
      obtain ⟨-, rfl⟩ := hok
      simp only [List.mem_append, List.mem_singleton] at hr
      rcases hr with hr | rfl
      · exact hinv r hr
      · exact ⟨by simp, by simp⟩
  · intro t a now res db' hok r hr
    unfold assignNumberToTenant at hok
    rcases hsel : selectAvailable db.verimor_numbers with _ | row <;>
      rw [hsel] at hok
    · exact absurd hok (by simp)
    · rw [Except.ok.injEq, Prod.mk.injEq] at hok
      obtain ⟨-, rfl⟩ := hok
      simp only [markAssigned, List.mem_map] at hr
      obtain ⟨s, hs, rfl⟩ := hr
      by_cases hid : s.id = row.id
      · simp only [hid, if_pos rfl]
        exact ⟨by simp, by simp⟩
      · simp only [if_neg hid]
        exact hinv s hs
  · intro d res db' hok r hr
    unfold releaseNumber at hok
    rcases hsel : db.verimor_numbers.find? (fun x => x.did_number == d) with _ | row <;>
      rw [hsel] at hok
    · exact absurd hok (by simp)
    · rw [Except.ok.injEq, Prod.mk.injEq] at hok
      obtain ⟨-, rfl⟩ := hok
      simp only [markReleased, List.mem_map] at hr
      obtain ⟨s, hs, rfl⟩ := hr
      by_cases hid : s.id = row.id
      · simp only [hid, if_pos rfl]
        exact ⟨by simp, by simp⟩
      · simp only [if_neg hid]
        exact hinv s hs

/-- **C5 (witness)**: the preservation theorem applied at the concrete
two-number pool, whose rows satisfy the invariant. -/
theorem c5_pool_ops_preserve_invariant_witness :
    poolInvariant twoNumberDB ∧
    (∀ t a now res db', assignNumberToTenant t a now twoNumberDB = .ok (res, db') →
      poolInvariant db') :=
  ⟨by decide, (c5_pool_ops_preserve_invariant twoNumberDB (by decide)).2.1⟩

/-! ## C7: release semantics -/

/-- **C7**: for a number `x` present in the pool, `releaseNumber x`
returns the row to `available` clearing tenant, agent and
assignment-timestamp, and clears the owning agent's denormalized
`verimor_did`; for `x` not in the pool it yields the not-found outcome
(`Numara bulunamadı`); after a release `x` is again among the available
numbers a claim draws from, and a claim only ever returns a number that
was `available` (never one currently `assigned`). -/
theorem c7_release_spec (x t a : String) (now : Nat) (db : DB)
    (hdid : (db.verimor_numbers.map NumberRow.did_number).Nodup) :
    ((∀ r ∈ db.verimor_numbers, r.did_number ≠ x) →
      releaseNumber x db = .error ("Numara bulunamadı: " ++ x)) ∧
    (∀ res db', releaseNumber x db = .ok (res, db') →
      (∀ r ∈ db'.verimor_numbers, r.did_number = x →
        r.status = "available" ∧ r.tenant_id = none ∧ r.agent_id = none ∧
          r.assigned_at = none) ∧
      x ∈ availableDids db'.verimor_numbers ∧
      (∀ aid, (∃ r ∈ db.verimor_numbers, r.did_number = x ∧
          r.agent_id = some aid) →
        ∀ ag ∈ db'.agents, ag.id = aid → ag.verimor_did = none)) ∧
    (∀ res db2, assignNumberToTenant t a now db = .ok (res, db2) →
      ∃ s ∈ db.verimor_numbers, s.status = "available" ∧
        s.did_number = res.didNumber) := by
  refine ⟨?_, ?_, ?_⟩
  · intro habs
    have hnone : db.verimor_numbers.find? (fun r => r.did_number == x) = none := by
      rw [List.find?_eq_none]
      intro r hr
      simp [habs r hr]
    simp [releaseNumber, hnone]
  · intro res db' hok
    unfold releaseNumber at hok
    rcases hfind : db.verimor_numbers.find? (fun r => r.did_number == x)
      with _ | row <;> rw [hfind] at hok
    · exact absurd hok (by simp)
    · have hrowmem : row ∈ db.verimor_numbers := List.mem_of_find?_eq_some hfind
      have hrowx : row.did_number = x := by
        have := List.find?_some hfind
        simpa using this
      rw [Except.ok.injEq, Prod.mk.injEq] at hok
      obtain ⟨-, rfl⟩ := hok
      refine ⟨?_, ?_, ?_⟩
      · intro r hr hrx
        simp only [markReleased, List.mem_map] at hr
        obtain ⟨s, hs, rfl⟩ := hr
        by_cases hsid : s.id = row.id
        · simp [hsid]
        · simp only [if_neg hsid] at hrx ⊢
          exfalso
          exact hsid (congrArg NumberRow.id
            (List.inj_on_of_nodup_map hdid hs hrowmem (hrx.trans hrowx.symm)))
      · have hmem' :
            (fun r => if r.id = row.id then
              { r with status := "available", tenant_id := none,
                       agent_id := none, assigned_at := none }
              else r) row ∈ markReleased row.id db.verimor_numbers :=
          List.mem_map_of_mem _ hrowmem
        simp only [if_pos rfl] at hmem'
        apply List.mem_map.mpr
        refine ⟨_, List.mem_filter.mpr ⟨hmem', by simp⟩, hrowx⟩
      · intro aid ⟨r, hr, hrx, hraid⟩
        have hreq : r = row :=
          List.inj_on_of_nodup_map hdid hr hrowmem (hrx.trans hrowx.symm)
        subst hreq
        rw [hraid]
        intro ag hag hagid
        simp only [clearAgentDid, List.mem_map] at hag
        obtain ⟨b, hb, rfl⟩ := hag
        by_cases hbid : b.id = aid
        · simp [hbid]
        · simp only [if_neg hbid] at hagid ⊢
          exact absurd hagid hbid
  · intro res db2 hok
    unfold assignNumberToTenant at hok
    rcases hsel : selectAvailable db.verimor_numbers with _ | row <;>
      rw [hsel] at hok
    · exact absurd hok (by simp)
    · have hmem : row ∈ db.verimor_numbers := List.mem_of_find?_eq_some hsel
      have hav : row.status = "available" := by
        have := List.find?_some hsel
        simpa using this
      rw [Except.ok.injEq, Prod.mk.injEq] at hok
      obtain ⟨rfl, -⟩ := hok
      exact ⟨row, hmem, hav, rfl⟩

/-- **C7 (witness)**: the release specification applied at the concrete
one-assigned-number pool (`emptyPoolDB`), whose row ids and numbers are
distinct. -/
theorem c7_release_spec_witness :
    (emptyPoolDB.verimor_numbers.map NumberRow.did_number).Nodup ∧
    ∀ res db', releaseNumber "+908503333333" emptyPoolDB = .ok (res, db') →
      (∀ r ∈ db'.verimor_numbers, r.did_number = "+908503333333" →
        r.status = "available" ∧ r.tenant_id = none ∧ r.agent_id = none ∧
          r.assigned_at = none) ∧
      "+908503333333" ∈ availableDids db'.verimor_numbers ∧
      (∀ aid, (∃ r ∈ emptyPoolDB.verimor_numbers,
          r.did_number = "+908503333333" ∧ r.agent_id = some aid) →
        ∀ ag ∈ db'.agents, ag.id = aid → ag.verimor_did = none) :=
  ⟨by decide,
   (c7_release_spec "+908503333333" "T1" "A1" 0 emptyPoolDB (by decide)).2.1⟩

/-! ## C10: self-signup with an exhausted pool -/

/-- **C10**: when no pool number is `available`, `signupFromForm` still
creates and commits the tenant, agent and quota rows, returns success with
`phoneNumber` null and `assignmentType` `'none'`, leaves the pool table
untouched, and records neither an externally purchased number nor the
placeholder on the new agent (all its number fields are null). -/
theorem c10_signup_empty_pool (bn ce slug pw hsh tid aid : String) (now : Nat)
    (db : DB) (h : getAvailableCount db = 0) :
    signupFromForm bn ce slug pw hsh tid aid now false db =
      .ok ({ success := true, tenantId := tid, slug := slug,
             temporaryPassword := pw, phoneNumber := none,
             assignmentType := "none" },
           { db with
               tenants := db.tenants ++
                 [{ id := tid, name := bn, slug := slug, email := ce,
                    password_hash := hsh, paynet_ref_code := none }],
               agents := db.agents ++
                 [{ id := aid, tenant_id := tid, name := "Satış Asistanı",
                    role_type := "general",
                    system_prompt := "Sen profesyonel bir asistansın.",
                    model := "gemini-pro", verimor_did := none,
                    twilio_phone_number := none, twilio_sid := none }],
               quotas := db.quotas ++
                 [{ tenant_id := tid, plan_name := "pro",
                    monthly_message_limit := 5000 }] }) := by
  have hnone : selectAvailable db.verimor_numbers = none :=
    (selectAvailable_eq_none_iff db.verimor_numbers).mpr h
  rcases hfind : db.agents.find? (fun x => x.tenant_id == tid) with _ | a0 <;>
    simp [signupFromForm, List.find?_append, hfind, hnone]

/-- **C10 (witness)**: the theorem applied at the concrete empty pool. -/
theorem c10_signup_empty_pool_witness :
    getAvailableCount emptyPoolDB = 0 ∧
    signupOutcome (signupFromForm "Acme" "a@b.c" "acme-7" "pw" "h" "T9" "A9" 3
        false emptyPoolDB) = some (none, "none") := by
  refine ⟨by decide, ?_⟩
  rw [c10_signup_empty_pool "Acme" "a@b.c" "acme-7" "pw" "h" "T9" "A9" 3
    emptyPoolDB (by decide)]
  rfl

/-! ## C2: the placeholder fallback and which entry paths have it -/

/-- The observable outcome of a paynet-callback run: `phoneNumber` and
`assignmentType` of the response, or `none` when the route answered with
its 500 error. -/
def callbackOutcome (r : Except String CallbackResponse × DB × List Event) :
    Option (Option String × String) :=
  match r.1 with
  | .ok resp => some (resp.phoneNumber, resp.assignmentType)
  | .error _ => none

/-- **C2 (counterexample)**: on the self-signup entry path with the pool
empty, provisioning does **not** terminate with the placeholder
`+905550001122`: at a concrete empty-pool state the signup returns
`phoneNumber` null with `assignmentType` `'none'`, refuting the claim
that the placeholder fallback holds on every entry path
(payment webhook and self-signup alike). -/
theorem c2_signup_has_no_placeholder_fallback :
    signupOutcome (signupFromForm "Blue" "b@x.c" "blue-2" "pw" "h" "T2" "A2" 0
        false emptyPoolDB) = some (none, "none") ∧
    some ((none : Option String), "none") ≠
      some (some "+905550001122", "mock") := ⟨by rfl, by decide⟩

/-- Reduction of the paynet callback under the double-failure schedule:
pool empty, Twilio purchase failing, placeholder update succeeding. -/
theorem paynetCallback_mock_reduction
    (email nm ref slug pw hsh tid aid : String) (now : Nat)
    (env : TwilioEnv) (e : String) (tUpd : Bool) (db : DB)
    (hnone : selectAvailable db.verimor_numbers = none)
    (hbuy : buyPhoneNumber slug env = .error e) :
    paynetCallbackSuccess email nm ref slug pw hsh tid aid now false env
        tUpd false db =
      (.ok { success := true, message := "Ödeme işlendi, hesap oluşturuldu",
             tenantSlug := slug, phoneNumber := some "+905550001122",
             assignmentType := "mock" },
       { db with
           tenants := db.tenants ++
             [{ id := tid, name := nm, slug := slug, email := email,
                password_hash := hsh, paynet_ref_code := some ref }],
           agents := setAgentTwilioPhone "+905550001122" tid (db.agents ++
             [{ id := aid, tenant_id := tid, name := "Satış Asistanı",
                role_type := "general",
                system_prompt := "Sen profesyonel bir asistansın.",
                model := "gemini-pro", verimor_did := none,
                twilio_phone_number := none, twilio_sid := none }]),
           quotas := db.quotas ++
             [{ tenant_id := tid, plan_name := "pro",
                monthly_message_limit := 5000 }] },
       [.txBegin, .txCommit, .txBegin, .poolClaimAttempt, .txRollback,
        .twilioPurchaseAttempt slug, .placeholderRecorded]) := by
  rcases hfind : db.agents.find? (fun x => x.tenant_id == tid) with _ | a0 <;>
    simp [paynetCallbackSuccess, createTenantFromPayment, assignNumberToTenant,
      mockFallbackStep, List.find?_append, hfind, hnone, hbuy]

/-- Reduction of the paynet callback when the pool is empty, the Twilio
purchase fails, and the placeholder update itself fails: the route errors
while the tenant/agent/quota rows of the first transaction stay
committed. -/
theorem paynetCallback_mock_fail_reduction
    (email nm ref slug pw hsh tid aid : String) (now : Nat)
    (env : TwilioEnv) (e : String) (tUpd : Bool) (db : DB)
    (hnone : selectAvailable db.verimor_numbers = none)
    (hbuy : buyPhoneNumber slug env = .error e) :
    paynetCallbackSuccess email nm ref slug pw hsh tid aid now false env
        tUpd true db =
      (.error "PersistenceFailure",
       { db with
           tenants := db.tenants ++
             [{ id := tid, name := nm, slug := slug, email := email,
                password_hash := hsh, paynet_ref_code := some ref }],
           agents := db.agents ++
             [{ id := aid, tenant_id := tid, name := "Satış Asistanı",
                role_type := "general",
                system_prompt := "Sen profesyonel bir asistansın.",
                model := "gemini-pro", verimor_did := none,
                twilio_phone_number := none, twilio_sid := none }],
           quotas := db.quotas ++
             [{ tenant_id := tid, plan_name := "pro",
                monthly_message_limit := 5000 }] },
       [.txBegin, .txCommit, .txBegin, .poolClaimAttempt, .txRollback,
        .twilioPurchaseAttempt slug]) := by
  rcases hfind : db.agents.find? (fun x => x.tenant_id == tid) with _ | a0 <;>
    simp [paynetCallbackSuccess, createTenantFromPayment, assignNumberToTenant,
      mockFallbackStep, List.find?_append, hfind, hnone, hbuy]

/-- **C2 (amended)**: on the payment-webhook path, when the pool claim
fails (empty pool) and the external Twilio purchase also fails, the
callback does not raise: it records the fixed placeholder `+905550001122`
(`assignmentType` `'mock'`) and returns success, with the tenant row
(keyed by the payment reference) and its agent row still committed.  The
self-signup path has no such fallback: with the pool empty it commits the
tenant/agent rows and returns `phoneNumber` null with `assignmentType`
`'none'`. -/
theorem c2_placeholder_fallback_payment_path
    (email nm ref slug pw hsh tid aid e : String) (now : Nat) (tUpd : Bool)
    (db : DB) (hpool : getAvailableCount db = 0) :
    callbackOutcome (paynetCallbackSuccess email nm ref slug pw hsh tid aid now
        false (.live (.error e)) tUpd false db) =
      some (some "+905550001122", "mock") ∧
    (∃ tRow ∈ (paynetCallbackSuccess email nm ref slug pw hsh tid aid now
        false (.live (.error e)) tUpd false db).2.1.tenants,
      tRow.id = tid ∧ tRow.paynet_ref_code = some ref) ∧
    (∃ ag ∈ (paynetCallbackSuccess email nm ref slug pw hsh tid aid now
        false (.live (.error e)) tUpd false db).2.1.agents,
      ag.id = aid ∧ ag.tenant_id = tid) ∧
    signupOutcome (signupFromForm email nm slug pw hsh tid aid now false db) =
      some (none, "none") := by
  have hnone : selectAvailable db.verimor_numbers = none :=
    (selectAvailable_eq_none_iff db.verimor_numbers).mpr hpool
  have hsig : signupOutcome (signupFromForm email nm slug pw hsh tid aid now
      false db) = some (none, "none") := by
    rcases hfind : db.agents.find? (fun x => x.tenant_id == tid) with _ | a0 <;>
      simp [signupFromForm, signupOutcome, List.find?_append, hfind, hnone]
  have hred := paynetCallback_mock_reduction email nm ref slug pw hsh tid aid
    now (.live (.error e)) ("Numara satın alınamadı: " ++ e ++ " " ++ slug)
    tUpd db hnone (by rfl)
  refine ⟨?_, ?_, ?_, hsig⟩
  · rw [hred]; rfl
  · rw [hred]
    exact ⟨_, List.mem_append_right _ (List.mem_singleton_self _), rfl, rfl⟩
  · rw [hred]
    simp only [setAgentTwilioPhone]
    refine ⟨_, List.mem_map_of_mem _
      (List.mem_append_right _ (List.mem_singleton_self _)), ?_⟩
    simp

/-- **C2 (witness)**: the amended theorem applied at the concrete
one-assigned-number pool. -/
theorem c2_placeholder_fallback_payment_path_witness :
    getAvailableCount emptyPoolDB = 0 ∧
    callbackOutcome (paynetCallbackSuccess "p@q.r" "Pat" "REF-9" "pat-1" "pw"
        "h" "T5" "A5" 7 false (.live (.error "timeout")) false false
        emptyPoolDB) = some (some "+905550001122", "mock") :=
  ⟨by decide,
   (c2_placeholder_fallback_payment_path "p@q.r" "Pat" "REF-9" "pat-1" "pw"
      "h" "T5" "A5" "timeout" 7 false emptyPoolDB (by decide)).1⟩

/-! ## C9: external calls never issued inside an open transaction -/

/-- The agent lookup of the paynet callback always finds a row, because
the agent inserted by tenant creation itself matches the searched
`tenant_id`. -/
theorem find?_tenant_in_append (l : List AgentRow) (ar : AgentRow)
    (tid : String) (h : ar.tenant_id = tid) :
    ∃ a0, (l ++ [ar]).find? (fun a => a.tenant_id == tid) = some a0 := by
  rcases hf : l.find? (fun a => a.tenant_id == tid) with _ | a0
  · exact ⟨ar, by simp [List.find?_append, hf, h]⟩
  · exact ⟨a0, by simp [List.find?_append, hf]⟩

/-- **C9**: in every payment-webhook provisioning invocation — across all
persistence-failure schedules, Twilio environments and database states —
no external provider purchase call is issued while a database transaction
is open: the pool claim/assign transaction has committed or rolled back
before any Twilio call appears in the execution trace. -/
theorem c9_no_external_call_during_open_tx
    (email nm ref slug pw hsh tid aid : String) (now : Nat)
    (tFail : Bool) (env : TwilioEnv) (tUpd mUpd : Bool) (db : DB) :
    noCallWhileTxOpen 0 (paynetCallbackSuccess email nm ref slug pw hsh tid
        aid now tFail env tUpd mUpd db).2.2 = true := by
  cases tFail with
  | true => rfl
  | false =>
    rcases hf : db.agents.find? (fun a => a.tenant_id == tid) with _ | a0 <;>
      rcases hsel : selectAvailable db.verimor_numbers with _ | row <;>
      rcases env with sid | outcome <;>
      (try rcases outcome with phone | e) <;>
      cases tUpd <;> cases mUpd <;>
      simp [paynetCallbackSuccess, createTenantFromPayment,
        assignNumberToTenant, buyPhoneNumber, mockFallbackStep,
        List.find?_append, hf, hsel, noCallWhileTxOpen]

/-! ## C8: the fixed provider priority chain -/

/-- **C8**: the payment-webhook provisioning follows the fixed priority
chain with each provider tried at most once per invocation: the pool
claim is attempted at most once and the Twilio purchase at most once;
when the pool has an available number no purchase call and no placeholder
occur; a Twilio purchase call appears only after the pool claim was
attempted and rolled back (pool empty), and is invoked with the tenant
slug; the placeholder is recorded only when the purchase stage itself
failed (purchase error, or its persisting update failing); and on a
successful purchase the number and provider sid are persisted on the
agent row while the pool's own table is untouched. -/
theorem c8_provider_priority_chain
    (email nm ref slug pw hsh tid aid : String) (now : Nat)
    (env : TwilioEnv) (tUpd mUpd : Bool) (db : DB)
    (out : Except String CallbackResponse × DB × List Event)
    (hout : out = paynetCallbackSuccess email nm ref slug pw hsh tid aid now
      false env tUpd mUpd db) :
    countPoolClaims out.2.2 ≤ 1 ∧
    countTwilioCalls out.2.2 ≤ 1 ∧
    (0 < getAvailableCount db →
      countTwilioCalls out.2.2 = 0 ∧ Event.placeholderRecorded ∉ out.2.2) ∧
    (Event.twilioPurchaseAttempt slug ∈ out.2.2 →
      getAvailableCount db = 0 ∧
      ∃ rest, out.2.2 = Event.txBegin :: Event.txCommit :: Event.txBegin ::
        Event.poolClaimAttempt :: Event.txRollback ::
        Event.twilioPurchaseAttempt slug :: rest) ∧
    (Event.placeholderRecorded ∈ out.2.2 →
      (∃ e, buyPhoneNumber slug env = .error e) ∨ tUpd = true) ∧
    (getAvailableCount db = 0 → ∀ phone, buyPhoneNumber slug env = .ok phone →
      tUpd = false →
      callbackOutcome out = some (some phone.phoneNumber, "twilio") ∧
      out.2.1.verimor_numbers = db.verimor_numbers ∧
      ∀ ag ∈ out.2.1.agents, ag.tenant_id = tid →
        ag.twilio_phone_number = some phone.phoneNumber ∧
        ag.twilio_sid = some phone.sid) := by
  subst hout
  obtain ⟨a0, hfind⟩ := find?_tenant_in_append db.agents
    { id := aid, tenant_id := tid, name := "Satış Asistanı",
      role_type := "general",
      system_prompt := "Sen profesyonel bir asistansın.",
      model := "gemini-pro", verimor_did := none,
      twilio_phone_number := none, twilio_sid := none } tid rfl
  rcases hsel : selectAvailable db.verimor_numbers with _ | row
  · have hcnt : getAvailableCount db = 0 :=
      (selectAvailable_eq_none_iff _).mp hsel
    rcases hbuy : buyPhoneNumber slug env with e' | phone'
    · cases mUpd with
      | false =>
          rw [paynetCallback_mock_reduction email nm ref slug pw hsh tid aid
            now env e' tUpd db hsel hbuy]
          simp [countPoolClaims, countTwilioCalls, callbackOutcome, hcnt]
      | true =>
          simp [paynetCallbackSuccess, createTenantFromPayment,
            assignNumberToTenant, mockFallbackStep, hfind, hsel, hbuy, hcnt,
            countPoolClaims, countTwilioCalls, callbackOutcome]
    · cases tUpd with
      | false =>
          simp [paynetCallbackSuccess, createTenantFromPayment,
            assignNumberToTenant, hfind, hsel, hbuy, hcnt,
            countPoolClaims, countTwilioCalls, callbackOutcome]
          intro ag hag htid
          simp only [setAgentTwilioPurchase, List.mem_map] at hag
          obtain ⟨b, hb, rfl⟩ := hag
          by_cases hbt : b.tenant_id = tid
          · simp [hbt]
          · simp only [if_neg hbt] at htid
            exact absurd htid hbt
      | true =>
          cases mUpd with
          | false =>
              simp [paynetCallbackSuccess, createTenantFromPayment,
                assignNumberToTenant, mockFallbackStep, hfind, hsel, hbuy,
                hcnt, countPoolClaims, countTwilioCalls, callbackOutcome]
          | true =>
              simp [paynetCallbackSuccess, createTenantFromPayment,
                assignNumberToTenant, mockFallbackStep, hfind, hsel, hbuy,
                hcnt, countPoolClaims, countTwilioCalls, callbackOutcome]
  · simp [paynetCallbackSuccess, createTenantFromPayment,
      assignNumberToTenant, hfind, hsel,
      countPoolClaims, countTwilioCalls, callbackOutcome]
    intro h0
    have h2 : selectAvailable db.verimor_numbers = none :=
      (selectAvailable_eq_none_iff _).mpr h0
    rw [hsel] at h2
    exact absurd h2 (by simp)

/-- **C8 (witness)**: the chain theorem applied at a concrete run — pool
empty, Twilio failing — discharging the run-equation hypothesis by
evaluation. -/
theorem c8_provider_priority_chain_witness :
    countPoolClaims (paynetCallbackSuccess "p@q.r" "Pat" "REF-8" "pat-2" "pw"
        "h" "T6" "A6" 1 false (.live (.error "down")) false false
        emptyPoolDB).2.2 ≤ 1 ∧
    countTwilioCalls (paynetCallbackSuccess "p@q.r" "Pat" "REF-8" "pat-2" "pw"
        "h" "T6" "A6" 1 false (.live (.error "down")) false false
        emptyPoolDB).2.2 ≤ 1 :=
  ⟨(c8_provider_priority_chain "p@q.r" "Pat" "REF-8" "pat-2" "pw" "h" "T6"
      "A6" 1 (.live (.error "down")) false false emptyPoolDB _ rfl).1,
   (c8_provider_priority_chain "p@q.r" "Pat" "REF-8" "pat-2" "pw" "h" "T6"
      "A6" 1 (.live (.error "down")) false false emptyPoolDB _ rfl).2.1⟩

/-! ## C4: duplicate payment-webhook delivery -/

/-- **C4 (evaluation at the failing input)**: delivering the same payment
webhook reference `REF-1` twice, against a pool of two available numbers,
ends with TWO tenant rows carrying `paynet_ref_code = REF-1` and both pool
numbers claimed: `createTenantFromPayment` inserts unconditionally —
nothing in the callback looks up an existing tenant for the reference or
returns the prior result. -/
theorem c4_duplicate_webhook_creates_second_tenant :
    ((paynetCallbackSuccess "pay@x.c" "Pay Er" "REF-1" "payer-2" "pw2" "h2"
        "T2" "A2" 11 false (.live (.error "na")) false false
        (paynetCallbackSuccess "pay@x.c" "Pay Er" "REF-1" "payer-1" "pw1"
          "h1" "T1" "A1" 10 false (.live (.error "na")) false false
          twoNumberDB).2.1).2.1.tenants.filter
      (fun t => t.paynet_ref_code == some "REF-1")).length = 2 ∧
    getAvailableCount (paynetCallbackSuccess "pay@x.c" "Pay Er" "REF-1"
      "payer-2" "pw2" "h2" "T2" "A2" 11 false (.live (.error "na")) false
      false (paynetCallbackSuccess "pay@x.c" "Pay Er" "REF-1" "payer-1"
        "pw1" "h1" "T1" "A1" 10 false (.live (.error "na")) false false
        twoNumberDB).2.1).2.1 = 0 ∧
    getAvailableCount twoNumberDB = 2 := by decide

/-! ## C6: atomicity of one provisioning attempt -/

/-- **C6 (counterexample)**: a payment-webhook attempt in which the pool
is empty, the Twilio purchase fails, and the placeholder update also
fails, terminates with the route's error — yet the tenant and agent rows
of the attempt are committed while no number assignment of any kind
exists for them: a partial state is visible after the attempt, refuting
the all-or-nothing claim for the payment path. -/
theorem c6_payment_path_partial_commit_concrete :
    callbackOutcome (paynetCallbackSuccess "c@x.c" "Cee" "REF-2" "cee-1" "pw"
      "h" "T3" "A3" 4 false (.live (.error "down")) false true emptyPoolDB) =
      none ∧
    (∃ t ∈ (paynetCallbackSuccess "c@x.c" "Cee" "REF-2" "cee-1" "pw" "h" "T3"
        "A3" 4 false (.live (.error "down")) false true emptyPoolDB).2.1.tenants,
      t.id = "T3") ∧
    ∀ ag ∈ (paynetCallbackSuccess "c@x.c" "Cee" "REF-2" "cee-1" "pw" "h" "T3"
        "A3" 4 false (.live (.error "down")) false true emptyPoolDB).2.1.agents,
      ag.tenant_id = "T3" →
        ag.verimor_did = none ∧ ag.twilio_phone_number = none := by decide

/-- **C6 (amended)**: on the self-signup path, all writes of one attempt
share a single transaction: a persistence failure raises with nothing
committed, and on success the tenant+agent+quota triple is committed
together with a consistent number-assignment outcome (either no number —
pool untouched, agent untouched — or a pool row assigned to exactly this
tenant/agent with the agent's denormalized `verimor_did` matching).  On
the payment-webhook path, by contrast, tenant+agent+quota commit in their
own earlier transaction, so when a later assignment step fails the
attempt ends in an error with the committed tenant/agent visible and no
number assignment recorded — a partial state. -/
theorem c6_atomicity_by_path (bn ce slug pw hsh tid aid : String) (now : Nat)
    (db : DB) (hfresh : ∀ a ∈ db.agents, a.tenant_id ≠ tid) :
    (∀ txFails, txFails = true →
      signupFromForm bn ce slug pw hsh tid aid now txFails db =
        .error "PersistenceFailure") ∧
    (∃ res db', signupFromForm bn ce slug pw hsh tid aid now false db =
        .ok (res, db') ∧
      ({ id := tid, name := bn, slug := slug, email := ce,
         password_hash := hsh, paynet_ref_code := none } : TenantRow) ∈
        db'.tenants ∧
      (∃ ag ∈ db'.agents, ag.id = aid ∧ ag.tenant_id = tid) ∧
      ({ tenant_id := tid, plan_name := "pro",
         monthly_message_limit := 5000 } : QuotaRow) ∈ db'.quotas ∧
      ((res.phoneNumber = none ∧ res.assignmentType = "none" ∧
        db'.verimor_numbers = db.verimor_numbers ∧
        (∀ ag ∈ db'.agents, ag.tenant_id = tid → ag.verimor_did = none)) ∨
       (∃ d, res.phoneNumber = some d ∧ res.assignmentType = "verimor" ∧
        (∃ r ∈ db'.verimor_numbers, r.did_number = d ∧ r.status = "assigned" ∧
          r.tenant_id = some tid ∧ r.agent_id = some aid) ∧
        (∀ ag ∈ db'.agents, ag.id = aid → ag.verimor_did = some d)))) ∧
    (∀ email nm ref e, getAvailableCount db = 0 →
      (paynetCallbackSuccess email nm ref slug pw hsh tid aid now false
          (.live (.error e)) false true db).1 = .error "PersistenceFailure" ∧
      (∃ t ∈ (paynetCallbackSuccess email nm ref slug pw hsh tid aid now false
          (.live (.error e)) false true db).2.1.tenants,
        t.id = tid ∧ t.paynet_ref_code = some ref) ∧
      (∀ ag ∈ (paynetCallbackSuccess email nm ref slug pw hsh tid aid now
          false (.live (.error e)) false true db).2.1.agents,
        ag.tenant_id = tid →
          ag.verimor_did = none ∧ ag.twilio_phone_number = none)) := by
  have hfnone : db.agents.find? (fun a => a.tenant_id == tid) = none := by
    rw [List.find?_eq_none]
    intro a ha
    simpa using hfresh a ha
  have hfind : (db.agents ++
      [({ id := aid, tenant_id := tid, name := "Satış Asistanı",
          role_type := "general",
          system_prompt := "Sen profesyonel bir asistansın.",
          model := "gemini-pro", verimor_did := none,
          twilio_phone_number := none,
          twilio_sid := none } : AgentRow)]).find? (fun a => a.tenant_id == tid) =
      some { id := aid, tenant_id := tid, name := "Satış Asistanı",
             role_type := "general",
             system_prompt := "Sen profesyonel bir asistansın.",
             model := "gemini-pro", verimor_did := none,
             twilio_phone_number := none, twilio_sid := none } := by
    simp [List.find?_append, hfnone]
  refine ⟨?_, ?_, ?_⟩
  · intro txFails h
    subst h
    rfl
  · rcases hsel : selectAvailable db.verimor_numbers with _ | row
    · refine ⟨{ success := true, tenantId := tid, slug := slug,
                temporaryPassword := pw, phoneNumber := none,
                assignmentType := "none" },
              { db with
                  tenants := db.tenants ++
                    [{ id := tid, name := bn, slug := slug, email := ce,
                       password_hash := hsh, paynet_ref_code := none }],
                  agents := db.agents ++
                    [{ id := aid, tenant_id := tid, name := "Satış Asistanı",
                       role_type := "general",
                       system_prompt := "Sen profesyonel bir asistansın.",
                       model := "gemini-pro", verimor_did := none,
                       twilio_phone_number := none, twilio_sid := none }],
                  quotas := db.quotas ++
                    [{ tenant_id := tid, plan_name := "pro",
                       monthly_message_limit := 5000 }] },
              ?_, ?_, ?_, ?_, Or.inl ⟨rfl, rfl, rfl, ?_⟩⟩
      · simp [signupFromForm, hfind, hsel]
      · exact List.mem_append_right _ (List.mem_singleton_self _)
      · exact ⟨_, List.mem_append_right _ (List.mem_singleton_self _), rfl, rfl⟩
      · exact List.mem_append_right _ (List.mem_singleton_self _)
      · intro ag hag htid
        rcases List.mem_append.mp hag with h1 | h1
        · exact absurd htid (hfresh ag h1)
        · rw [List.mem_singleton.mp h1]
    · refine ⟨{ success := true, tenantId := tid, slug := slug,
                temporaryPassword := pw,
                phoneNumber := some row.did_number,
                assignmentType := "verimor" },
              { db with
                  verimor_numbers :=
                    markAssigned tid aid row.id now db.verimor_numbers,
                  tenants := db.tenants ++
                    [{ id := tid, name := bn, slug := slug, email := ce,
                       password_hash := hsh, paynet_ref_code := none }],
                  agents := setAgentDid row.did_number aid (db.agents ++
                    [{ id := aid, tenant_id := tid, name := "Satış Asistanı",
                       role_type := "general",
                       system_prompt := "Sen profesyonel bir asistansın.",
                       model := "gemini-pro", verimor_did := none,
                       twilio_phone_number := none, twilio_sid := none }]),
                  quotas := db.quotas ++
                    [{ tenant_id := tid, plan_name := "pro",
                       monthly_message_limit := 5000 }] },
              ?_, ?_, ?_, ?_, Or.inr ⟨row.did_number, rfl, rfl, ?_, ?_⟩⟩
      · simp [signupFromForm, hfind, hsel]
      · exact List.mem_append_right _ (List.mem_singleton_self _)
      · refine ⟨_, List.mem_map_of_mem _
          (List.mem_append_right _ (List.mem_singleton_self _)), ?_, ?_⟩ <;>
          simp [setAgentDid]
      · exact List.mem_append_right _ (List.mem_singleton_self _)
      · have hrowmem : row ∈ db.verimor_numbers :=
          List.mem_of_find?_eq_some hsel
        refine ⟨_, List.mem_map_of_mem _ hrowmem, ?_⟩
        simp
      · intro ag hag hagid
        simp only [setAgentDid, List.mem_map] at hag
        obtain ⟨b, hb, rfl⟩ := hag
        by_cases hbid : b.id = aid
        · simp [hbid]
        · simp only [if_neg hbid] at hagid
          exact absurd hagid hbid
  · intro email nm ref e h0
    have hselnone : selectAvailable db.verimor_numbers = none :=
      (selectAvailable_eq_none_iff _).mpr h0
    rw [paynetCallback_mock_fail_reduction email nm ref slug pw hsh tid aid
      now (.live (.error e)) ("Numara satın alınamadı: " ++ e ++ " " ++ slug)
      false db hselnone rfl]
    refine ⟨rfl, ⟨_, List.mem_append_right _ (List.mem_singleton_self _),
      rfl, rfl⟩, ?_⟩
    intro ag hag htid
    rcases List.mem_append.mp hag with h1 | h1
    · exact absurd htid (hfresh ag h1)
    · rw [List.mem_singleton.mp h1]
      exact ⟨rfl, rfl⟩

/-- **C6 (witness)**: the amended atomicity theorem applied at the
concrete empty-agent, empty-pool state. -/
theorem c6_atomicity_by_path_witness :
    (∀ a ∈ emptyPoolDB.agents, a.tenant_id ≠ "T4") ∧
    (∀ txFails, txFails = true →
      signupFromForm "Dee" "d@x.c" "dee-1" "pw" "h" "T4" "A4" 2 txFails
        emptyPoolDB = .error "PersistenceFailure") :=
  ⟨by decide,
   (c6_atomicity_by_path "Dee" "d@x.c" "dee-1" "pw" "h" "T4" "A4" 2
      emptyPoolDB (by decide)).1⟩

/-! ## C1: N concurrent claims against a pool of M numbers -/

/-- A run of N claim transactions.  Each `assignNumberToTenant` call is a
single database transaction whose `FOR UPDATE SKIP LOCKED` selection and
row updates make it atomic with respect to the other claims: concurrent
transactions serialize into some execution order, each either claiming a
row no other transaction holds or observing the empty pool.  `runClaims`
is that serialization: the claims execute in sequence, a failed claim
leaving the state unchanged (its transaction rolled back). -/
def runClaims (reqs : List (String × String)) (now : Nat) (db : DB) :
    List (Except String AssignedNumberResult) × DB :=
  match reqs with
  | [] => ([], db)
  | (t, a) :: rest =>
    match assignNumberToTenant t a now db with
    | .error e =>
        let out := runClaims rest now db
        (.error e :: out.1, out.2)
    | .ok (r, db1) =>
        let out := runClaims rest now db1
        (.ok r :: out.1, out.2)

/-- The numbers returned by the successful claims of a run, in order. -/
def okDids : List (Except String AssignedNumberResult) → List String
  | [] => []
  | .ok r :: rs => r.didNumber :: okDids rs
  | .error _ :: rs => okDids rs

/-- Every available number is a number of the table. -/
theorem mem_map_did_of_mem_availableDids (rows : List NumberRow) (d : String)
    (h : d ∈ availableDids rows) : d ∈ rows.map NumberRow.did_number := by
  simp only [availableDids, List.mem_map, List.mem_filter] at h ⊢
  obtain ⟨r, ⟨hr, -⟩, rfl⟩ := h
  exact ⟨r, hr, rfl⟩

/-- Cons step of the available-rows filter, non-available head. -/
theorem filterAvailable_cons_of_neg (r : NumberRow) (rows : List NumberRow)
    (h : (r.status == "available") = false) :
    (r :: rows).filter (fun x => x.status == "available") =
      rows.filter (fun x => x.status == "available") := by
  simp [List.filter_cons, h]

/-- Cons step of the available-rows filter, available head. -/
theorem filterAvailable_cons_of_pos (r : NumberRow) (rows : List NumberRow)
    (h : (r.status == "available") = true) :
    (r :: rows).filter (fun x => x.status == "available") =
      r :: rows.filter (fun x => x.status == "available") := by
  simp [List.filter_cons, h]

/-- Cons step of the available-numbers list, non-available head. -/
theorem availableDids_cons_of_neg (r : NumberRow) (rows : List NumberRow)
    (h : (r.status == "available") = false) :
    availableDids (r :: rows) = availableDids rows := by
  simp [availableDids, List.filter_cons, h]

/-- Cons step of the available-numbers list, available head. -/
theorem availableDids_cons_of_pos (r : NumberRow) (rows : List NumberRow)
    (h : (r.status == "available") = true) :
    availableDids (r :: rows) = r.did_number :: availableDids rows := by
  simp [availableDids, List.filter_cons, h]

/-- Effect of one successful claim on the `verimor_numbers` table: with
row ids unique (primary key) and numbers unique (the `UNIQUE` constraint),
marking the selected available row assigned removes exactly its number
from the available set, decreases the available count by one, and leaves
the tables' ids and numbers untouched. -/
theorem markAssigned_find?_spec (t a : String) (now : Nat) :
    ∀ (rows : List NumberRow),
      (rows.map NumberRow.id).Nodup →
      (rows.map NumberRow.did_number).Nodup →
      ∀ row, rows.find? (fun r => r.status == "available") = some row →
      ((markAssigned t a row.id now rows).filter
          (fun r => r.status == "available")).length + 1 =
        (rows.filter (fun r => r.status == "available")).length ∧
      row.did_number ∈ availableDids rows ∧
      row.did_number ∉ availableDids (markAssigned t a row.id now rows) ∧
      (∀ d ∈ availableDids (markAssigned t a row.id now rows),
        d ∈ availableDids rows) ∧
      (markAssigned t a row.id now rows).map NumberRow.id =
        rows.map NumberRow.id ∧
      (markAssigned t a row.id now rows).map NumberRow.did_number =
        rows.map NumberRow.did_number := by
  intro rows
  induction rows with
  | nil =>
      intro _ _ row hfind
      simp at hfind
  | cons hd tl ih =>
      intro hid hdid row hfind
      rw [List.map_cons, List.nodup_cons] at hid hdid
      obtain ⟨hidhd, hidtl⟩ := hid
      obtain ⟨hdidhd, hdidtl⟩ := hdid
      by_cases hp : hd.status = "available"
      · have hpb : (hd.status == "available") = true := by simp [hp]
        have hcons : List.find? (fun r => r.status == "available") (hd :: tl) =
            some hd := by
          simp [List.find?, hpb]
        rw [hcons, Option.some.injEq] at hfind
        subst hfind
        have h1 : ∀ x ∈ tl,
            (fun r : NumberRow => if r.id = hd.id then
              { r with status := "assigned", tenant_id := some t,
                       agent_id := some a, assigned_at := some now }
              else r) x = id x := by
          intro x hx
          simp only [id]
          rw [if_neg]
          intro hcontra
          exact hidhd (hcontra ▸ List.mem_map_of_mem NumberRow.id hx)
        have htl : markAssigned t a hd.id now tl = tl :=
          (List.map_congr_left h1).trans (List.map_id tl)
        have htl2 : List.map (fun r : NumberRow => if r.id = hd.id then
            { r with status := "assigned", tenant_id := some t,
                     agent_id := some a, assigned_at := some now }
            else r) tl = tl := htl
        have hstep : markAssigned t a hd.id now (hd :: tl) =
            { hd with status := "assigned", tenant_id := some t,
                      agent_id := some a, assigned_at := some now } :: tl := by
          simp [markAssigned, htl2]
        rw [hstep]
        refine ⟨?_, ?_, ?_, ?_, ?_, ?_⟩
        · rw [filterAvailable_cons_of_neg _ tl (by simp),
            filterAvailable_cons_of_pos hd tl hpb]
          simp
        · rw [availableDids_cons_of_pos hd tl hpb]
          exact List.mem_cons_self _ _
        · rw [availableDids_cons_of_neg _ tl (by simp)]
          intro hmem
          exact hdidhd (mem_map_did_of_mem_availableDids tl hd.did_number hmem)
        · intro d hd2
          rw [availableDids_cons_of_neg _ tl (by simp)] at hd2
          rw [availableDids_cons_of_pos hd tl hpb]
          exact List.mem_cons_of_mem _ hd2
        · simp
        · simp
      · have hpb : (hd.status == "available") = false := by simp [hp]
        have hcons : List.find? (fun r => r.status == "available") (hd :: tl) =
            List.find? (fun r => r.status == "available") tl := by
          simp [List.find?, hpb]
        rw [hcons] at hfind
        have hrowtl : row ∈ tl := List.mem_of_find?_eq_some hfind
        have hne : hd.id ≠ row.id := by
          intro hcontra
          exact hidhd (hcontra ▸ List.mem_map_of_mem NumberRow.id hrowtl)
        have hstep : markAssigned t a row.id now (hd :: tl) =
            hd :: markAssigned t a row.id now tl := by
          simp only [markAssigned, List.map_cons]
          rw [if_neg hne]
        obtain ⟨ih1, ih2, ih3, ih4, ih5, ih6⟩ := ih hidtl hdidtl row hfind
        rw [hstep]
        refine ⟨?_, ?_, ?_, ?_, ?_, ?_⟩
        · rw [filterAvailable_cons_of_neg hd _ hpb,
            filterAvailable_cons_of_neg hd tl hpb]
          exact ih1
        · rw [availableDids_cons_of_neg hd tl hpb]
          exact ih2
        · rw [availableDids_cons_of_neg hd _ hpb]
          exact ih3
        · intro d hd2
          rw [availableDids_cons_of_neg hd _ hpb] at hd2
          rw [availableDids_cons_of_neg hd tl hpb]
          exact ih4 d hd2
        · simp [ih5]
        · simp [ih6]

/-- One successful claim at the service level: the returned number was
available, is no longer available afterwards, the available count drops
by exactly one, and the pool's ids/numbers (hence their uniqueness) are
preserved. -/
theorem assignNumberToTenant_success_spec (t a : String) (now : Nat) (db : DB)
    (hid : (db.verimor_numbers.map NumberRow.id).Nodup)
    (hdid : (db.verimor_numbers.map NumberRow.did_number).Nodup)
    (row : NumberRow) (hsel : selectAvailable db.verimor_numbers = some row) :
    ∃ db', assignNumberToTenant t a now db =
        .ok ({ didNumber := row.did_number, numberId := row.id,
               tenantId := t, agentId := a }, db') ∧
      getAvailableCount db' + 1 = getAvailableCount db ∧
      row.did_number ∈ availableDids db.verimor_numbers ∧
      row.did_number ∉ availableDids db'.verimor_numbers ∧
      (∀ d ∈ availableDids db'.verimor_numbers,
        d ∈ availableDids db.verimor_numbers) ∧
      (db'.verimor_numbers.map NumberRow.id).Nodup ∧
      (db'.verimor_numbers.map NumberRow.did_number).Nodup := by
  obtain ⟨h1, h2, h3, h4, h5, h6⟩ :=
    markAssigned_find?_spec t a now db.verimor_numbers hid hdid row hsel
  refine ⟨{ db with
      verimor_numbers := markAssigned t a row.id now db.verimor_numbers,
      agents := setAgentDid row.did_number a db.agents }, ?_,
    ?_, h2, h3, h4, ?_, ?_⟩
  · simp [assignNumberToTenant, hsel]
  · exact h1
  · rw [show ({ db with
        verimor_numbers := markAssigned t a row.id now db.verimor_numbers,
        agents := setAgentDid row.did_number a db.agents } : DB).verimor_numbers
      = markAssigned t a row.id now db.verimor_numbers from rfl, h5]
    exact hid
  · rw [show ({ db with
        verimor_numbers := markAssigned t a row.id now db.verimor_numbers,
        agents := setAgentDid row.did_number a db.agents } : DB).verimor_numbers
      = markAssigned t a row.id now db.verimor_numbers from rfl, h6]
    exact hdid

/-- **C1**: for every pool state whose row ids and numbers are unique
(the table's PRIMARY KEY and UNIQUE constraints) and every serialization
of N concurrent claim transactions against it, exactly
`min N M` claims succeed (so at most M, where M is the number of
`available` rows), any two succeeding claims return distinct numbers, the
numbers returned all come from the initially available set (so no number
is handed to two tenants), and every other invocation observes the
pool-empty outcome. -/
theorem c1_concurrent_claims (reqs : List (String × String)) (now : Nat)
    (db : DB) (hid : (db.verimor_numbers.map NumberRow.id).Nodup)
    (hdid : (db.verimor_numbers.map NumberRow.did_number).Nodup) :
    (okDids (runClaims reqs now db).1).length =
      min reqs.length (getAvailableCount db) ∧
    (okDids (runClaims reqs now db).1).Nodup ∧
    (∀ d ∈ okDids (runClaims reqs now db).1,
      d ∈ availableDids db.verimor_numbers) ∧
    (runClaims reqs now db).1.length = reqs.length ∧
    (∀ res ∈ (runClaims reqs now db).1,
      res = .error "Havuzda müsait numara kalmadı!" ∨ ∃ r, res = .ok r) := by
  induction reqs generalizing db with
  | nil => simp [runClaims, okDids]
  | cons req rest ih =>
      obtain ⟨t, a⟩ := req
      rcases hsel : selectAvailable db.verimor_numbers with _ | row
      · have hcnt : getAvailableCount db = 0 :=
          (selectAvailable_eq_none_iff _).mp hsel
        have herr : assignNumberToTenant t a now db =
            .error "Havuzda müsait numara kalmadı!" := by
          simp [assignNumberToTenant, hsel]
        obtain ⟨ih1, ih2, ih3, ih4, ih5⟩ := ih db hid hdid
        simp only [runClaims, herr]
        refine ⟨?_, ?_, ?_, ?_, ?_⟩
        · simp only [okDids]
          rw [ih1, hcnt]
          simp
        · simpa [okDids] using ih2
        · simpa [okDids] using ih3
        · simpa using ih4
        · intro res hres
          rcases List.mem_cons.mp hres with h1 | h1
          · exact .inl h1
          · exact ih5 res h1
      · obtain ⟨db', hassign, hlen, hmem, hnotin, hsub, hid', hdid'⟩ :=
          assignNumberToTenant_success_spec t a now db hid hdid row hsel
        obtain ⟨ih1, ih2, ih3, ih4, ih5⟩ := ih db' hid' hdid'
        simp only [runClaims, hassign]
        refine ⟨?_, ?_, ?_, ?_, ?_⟩
        · simp only [okDids, List.length_cons]
          rw [ih1]
          omega
        · simp only [okDids, List.nodup_cons]
          refine ⟨fun hcontra => hnotin (ih3 _ hcontra), ih2⟩
        · intro d hd2
          simp only [okDids, List.mem_cons] at hd2
          rcases hd2 with h1 | h1
          · exact h1 ▸ hmem
          · exact hsub d (ih3 d h1)
        · simpa using ih4
        · intro res hres
          rcases List.mem_cons.mp hres with h1 | h1
          · exact .inr ⟨_, h1⟩
          · exact ih5 res h1

/-- **C1 (witness)**: three claims against the concrete two-number pool —
exactly two succeed with distinct numbers and the third observes the
pool-empty outcome. -/
theorem c1_concurrent_claims_witness :
    (twoNumberDB.verimor_numbers.map NumberRow.id).Nodup ∧
    (okDids (runClaims [("TA", "AA"), ("TB", "AB"), ("TC", "AC")] 0
        twoNumberDB).1).length =
      min 3 (getAvailableCount twoNumberDB) ∧
    (okDids (runClaims [("TA", "AA"), ("TB", "AB"), ("TC", "AC")] 0
        twoNumberDB).1).Nodup :=
  ⟨by decide,
   (c1_concurrent_claims [("TA", "AA"), ("TB", "AB"), ("TC", "AC")] 0
      twoNumberDB (by decide) (by decide)).1,
   (c1_concurrent_claims [("TA", "AA"), ("TB", "AB"), ("TC", "AC")] 0
      twoNumberDB (by decide) (by decide)).2.1⟩

end AioBackend
